import Mathlib

/-!
Verification of the pedestrian costing layer of the valhalla routing engine
(`src/thor/pedestriancost.cc`), shallowly embedded in Lean 4. Floating-point
values of the source are modelled as exact rationals (ℚ); the C++ constants
`5.1f`, `0.9f`, `3.6f` become `51/10`, `9/10`, `18/5`.
-/

/-- Use classification of a directed edge (`baldr::Use`); only the values the
costing code distinguishes are listed, plus representatives of the others. -/
inductive Use where
  | kRoad
  | kFootway
  | kSteps
  | kFerry
  deriving DecidableEq, Repr

/-- Pedestrian access bit of the per-mode access bitmask
(`baldr::kPedestrianAccess`). The header defining the concrete bit position is
not under src/; the bitmask is one bit per mode, and every claim is invariant
under the choice of position, so bit 0 is used. -/
def kPedestrianAccess : Nat := 1

/-- Immutable directed-edge attribute record (`baldr::DirectedEdge`), restricted
to the attributes the pedestrian costing reads: forward access bitmask, length
in meters, use classification, not-through-traffic flag, and the two
hierarchy-transition flags. -/
structure DirectedEdge where
  forwardaccess : Nat
  length : ℚ
  use : Use
  not_thru : Bool
  trans_up : Bool
  trans_down : Bool
  deriving DecidableEq, Repr

/-- Node attribute record (`baldr::NodeInfo`), restricted to the access
bitmask. -/
structure NodeInfo where
  access : Nat
  deriving DecidableEq, Repr

/-- Modelled from the spec: the per-mode configuration object
(`boost::property_tree::ptree`), whose recognized pedestrian keys are the
nominal walking speed, the footway-preference weight and the not-through-traffic
tolerance distance; an unset key takes the documented default. -/
structure Config where
  walking_speed : Option ℚ
  favor_walkways : Option ℚ
  not_thru_distance : Option ℚ
  deriving DecidableEq, Repr

/-- Error signalled when a configuration value is outside its valid domain. -/
inductive ConfigurationError where
  | outOfRange
  deriving DecidableEq, Repr

/-- State of the base class `DynamicCost` visible to the pedestrian costing:
the not-through-traffic tolerance distance `not_thru_distance_`. -/
structure DynamicCostBase where
  not_thru_distance_ : ℚ
  deriving DecidableEq, Repr

/-- Modelled from the spec: the default not-through-traffic tolerance distance.
The spec documents that a default exists but gives no number; no theorem below
depends on this value. -/
def defaultNotThruDistance : ℚ := 5000

/-- Modelled from the spec: the `DynamicCost` base-class constructor, whose
definition is not under src/. Per the spec it reads the not-through-traffic
tolerance from the configuration (default when unset) and fails with a
ConfigurationError when the value is outside its valid domain (negative). -/
def DynamicCost.ofConfig (c : Config) : Except ConfigurationError DynamicCostBase :=
  let d := c.not_thru_distance.getD defaultNotThruDistance
  if d < 0 then Except.error ConfigurationError.outOfRange
  else Except.ok ⟨d⟩

/-- The pedestrian costing strategy instance (`thor::PedestrianCost`): the
inherited not-through tolerance plus the two pedestrian constants. -/
structure PedestrianCost where
  not_thru_distance_ : ℚ
  walkingspeed_ : ℚ
  favorwalkways_ : ℚ
  deriving DecidableEq, Repr

/-- `PedestrianCost::PedestrianCost` composed with `CreatePedestrianCost`: the
visible constructor delegates to the base class for `not_thru_distance_` and
hardcodes `walkingspeed_(5.1f)` and `favorwalkways_(0.9f)`; it never reads the
pedestrian keys of the configuration (the body is a TODO). -/
def CreatePedestrianCost (c : Config) : Except ConfigurationError PedestrianCost :=
  (DynamicCost.ofConfig c).map fun base =>
    { not_thru_distance_ := base.not_thru_distance_,
      walkingspeed_ := 51/10,
      favorwalkways_ := 9/10 }

/-- `PedestrianCost::Allowed(edge, restriction, uturn, dist2dest)`: pedestrian
access bit set, no U-turn, and a not-through edge only within the tolerance
distance of the destination. The restriction mask is an unnamed, unused
parameter in the source. -/
def PedestrianCost.Allowed (s : PedestrianCost) (edge : DirectedEdge)
    (_restriction : Nat) (uturn : Bool) (dist2dest : ℚ) : Bool :=
  (edge.forwardaccess &&& kPedestrianAccess != 0) && !uturn &&
    !(edge.not_thru && decide (s.not_thru_distance_ < dist2dest))

/-- `PedestrianCost::Allowed(node)`: pedestrian access bit of the node. -/
def PedestrianCost.AllowedNode (_s : PedestrianCost) (node : NodeInfo) : Bool :=
  node.access &&& kPedestrianAccess != 0

/-- `PedestrianCost::Get(edge)`: edge length, scaled by `favorwalkways_` on
footways. -/
def PedestrianCost.Get (s : PedestrianCost) (edge : DirectedEdge) : ℚ :=
  if edge.use = Use.kFootway then edge.length * s.favorwalkways_
  else edge.length

/-- `PedestrianCost::Seconds(edge)`: `length * 3.6 / walkingspeed_`. -/
def PedestrianCost.Seconds (s : PedestrianCost) (edge : DirectedEdge) : ℚ :=
  edge.length * (18/5) / s.walkingspeed_

/-- `PedestrianCost::AStarCostFactor()`: `favorwalkways_` when below 1, else 1. -/
def PedestrianCost.AStarCostFactor (s : PedestrianCost) : ℚ :=
  if s.favorwalkways_ < 1 then s.favorwalkways_ else 1

/-- `PedestrianCost::UnitSize()`: constant 2 meters. -/
def PedestrianCost.UnitSize (_s : PedestrianCost) : ℚ := 2

/-- `PedestrianCost::GetFilter()`: the returned lambda excludes an edge that is
a hierarchy transition or lacks the pedestrian forward-access bit. -/
def PedestrianCost.GetFilter (_s : PedestrianCost) (edge : DirectedEdge) : Bool :=
  edge.trans_up || edge.trans_down ||
    (edge.forwardaccess &&& kPedestrianAccess == 0)

/-- Every successful construction yields the hardcoded walking speed and
favor-walkways factor, and the tolerance taken from the configuration. -/
theorem createPedestrianCost_fields (c : Config) (s : PedestrianCost)
    (h : CreatePedestrianCost c = Except.ok s) :
    s = ⟨c.not_thru_distance.getD defaultNotThruDistance, 51/10, 9/10⟩ := by
  unfold CreatePedestrianCost DynamicCost.ofConfig at h
  by_cases hd : c.not_thru_distance.getD defaultNotThruDistance < 0
  · simp [hd, Except.map] at h
  · simp [hd, Except.map] at h
    exact h.symm

/-- Construction from the all-defaults configuration succeeds. -/
theorem createPedestrianCost_default_ok :
    CreatePedestrianCost ⟨none, none, none⟩ =
      Except.ok ⟨5000, 51/10, 9/10⟩ := by
  simp [CreatePedestrianCost, DynamicCost.ofConfig, defaultNotThruDistance, Except.map]
  norm_num

/-- C1: for every well-formed edge (length ≥ 0) the pedestrian strategy
satisfies A* admissibility: AStarCostFactor times the edge length is at most
Get(edge); with the default configuration AStarCostFactor returns 0.9, and a
footway edge of length 100 gets cost 90. -/
theorem C1_astar_admissibility (c : Config) (s : PedestrianCost)
    (h : CreatePedestrianCost c = Except.ok s) :
    (∀ edge : DirectedEdge, 0 ≤ edge.length →
      s.AStarCostFactor * edge.length ≤ s.Get edge) ∧
    s.AStarCostFactor = 9/10 ∧
    (∀ edge : DirectedEdge, edge.use = Use.kFootway → edge.length = 100 →
      s.Get edge = 90) := by
  obtain rfl := createPedestrianCost_fields c s h
  have hA : (PedestrianCost.mk (c.not_thru_distance.getD defaultNotThruDistance)
      (51/10) (9/10)).AStarCostFactor = 9/10 := by
    norm_num [PedestrianCost.AStarCostFactor]
  refine ⟨?_, hA, ?_⟩
  · intro e he
    rw [hA]
    unfold PedestrianCost.Get
    split
    · rw [mul_comm]
    · nlinarith
  · intro e hu hl
    simp [PedestrianCost.Get, hu, hl]
    norm_num

/-- C1 witness: the theorem instantiated at the all-defaults configuration. -/
theorem C1_astar_admissibility_witness :
    CreatePedestrianCost ⟨none, none, none⟩ =
      Except.ok ⟨5000, 51/10, 9/10⟩ ∧
    ((∀ edge : DirectedEdge, 0 ≤ edge.length →
      (PedestrianCost.mk 5000 (51/10) (9/10)).AStarCostFactor * edge.length ≤
        (PedestrianCost.mk 5000 (51/10) (9/10)).Get edge) ∧
    (PedestrianCost.mk 5000 (51/10) (9/10)).AStarCostFactor = 9/10 ∧
    (∀ edge : DirectedEdge, edge.use = Use.kFootway → edge.length = 100 →
      (PedestrianCost.mk 5000 (51/10) (9/10)).Get edge = 90)) :=
  ⟨createPedestrianCost_default_ok,
   C1_astar_admissibility ⟨none, none, none⟩ _ createPedestrianCost_default_ok⟩

/-- C2 (code bug): constructing from a configuration whose walking speed and
favor-walkways weight are out of their documented domains (negative) succeeds
with the hardcoded defaults instead of failing with a ConfigurationError: the
visible constructor never reads or validates the pedestrian parameters (its
body is a TODO). -/
theorem C2_no_validation :
    CreatePedestrianCost ⟨some (-1), some (-1), none⟩ =
      Except.ok ⟨5000, 51/10, 9/10⟩ := by
  simp [CreatePedestrianCost, DynamicCost.ofConfig, defaultNotThruDistance, Except.map]
  norm_num

/-- C3: for a not-through edge with pedestrian access, a non-U-turn move is
allowed exactly when the distance to destination does not exceed the configured
tolerance; distance equal to the tolerance is allowed. -/
theorem C3_not_thru_boundary (s : PedestrianCost) (edge : DirectedEdge)
    (r : Nat) (d : ℚ)
    (hnt : edge.not_thru = true)
    (hacc : edge.forwardaccess &&& kPedestrianAccess ≠ 0) :
    s.Allowed edge r false d = true ↔ d ≤ s.not_thru_distance_ := by
  simp [PedestrianCost.Allowed, hnt, hacc, not_lt]

/-- C3 witness: tolerance 100, a not-through edge, distance exactly 100. -/
theorem C3_not_thru_boundary_witness :
    (DirectedEdge.mk 1 50 Use.kRoad true false false).not_thru = true ∧
    (DirectedEdge.mk 1 50 Use.kRoad true false false).forwardaccess &&&
      kPedestrianAccess ≠ 0 ∧
    ((PedestrianCost.mk 100 (51/10) (9/10)).Allowed
        (DirectedEdge.mk 1 50 Use.kRoad true false false) 0 false 100 = true ↔
      (100 : ℚ) ≤ 100) :=
  ⟨rfl, by decide,
   C3_not_thru_boundary (PedestrianCost.mk 100 (51/10) (9/10))
     (DirectedEdge.mk 1 50 Use.kRoad true false false) 0 100 rfl (by decide)⟩

/-- C4: a U-turn move is never allowed for the pedestrian strategy, whatever
the edge, restriction mask and distance. -/
theorem C4_uturn_reject (s : PedestrianCost) (edge : DirectedEdge)
    (r : Nat) (d : ℚ) :
    s.Allowed edge r true d = false := by
  simp [PedestrianCost.Allowed]

/-- C5: Allowed is monotone in the pedestrian forward-access bit: without the
bit the result is false whatever the other arguments, and turning only that bit
on can only change the result from false to true. -/
theorem C5_access_monotone (s : PedestrianCost) (edge : DirectedEdge)
    (r : Nat) (u : Bool) (d : ℚ) :
    (edge.forwardaccess &&& kPedestrianAccess = 0 →
      s.Allowed edge r u d = false) ∧
    (s.Allowed edge r u d = true →
      s.Allowed { edge with
        forwardaccess := edge.forwardaccess ||| kPedestrianAccess } r u d = true) := by
  constructor
  · intro h0
    simp [PedestrianCost.Allowed, h0]
  · intro ht
    have hbit : (edge.forwardaccess ||| kPedestrianAccess) &&& kPedestrianAccess ≠ 0 := by
      have : ((edge.forwardaccess ||| kPedestrianAccess) &&&
          kPedestrianAccess).testBit 0 = true := by
        simp [Nat.testBit_and, Nat.testBit_or, kPedestrianAccess]
      intro hz
      rw [hz] at this
      simp at this
    simp only [PedestrianCost.Allowed, Bool.and_eq_true, bne_iff_ne] at ht ⊢
    exact ⟨⟨hbit, ht.1.2⟩, ht.2⟩

/-- C5 witness: both parts instantiated, at an edge without the bit and at an
allowed edge with the bit. -/
theorem C5_access_monotone_witness :
    (DirectedEdge.mk 0 50 Use.kRoad false false false).forwardaccess &&&
      kPedestrianAccess = 0 ∧
    (PedestrianCost.mk 100 (51/10) (9/10)).Allowed
      (DirectedEdge.mk 0 50 Use.kRoad false false false) 0 false 0 = false ∧
    (PedestrianCost.mk 100 (51/10) (9/10)).Allowed
      (DirectedEdge.mk 1 50 Use.kRoad false false false) 0 false 0 = true ∧
    (PedestrianCost.mk 100 (51/10) (9/10)).Allowed
      { DirectedEdge.mk 1 50 Use.kRoad false false false with
        forwardaccess :=
          (DirectedEdge.mk 1 50 Use.kRoad false false false).forwardaccess |||
            kPedestrianAccess } 0 false 0 = true := by
  have hA : (PedestrianCost.mk 100 (51/10) (9/10)).Allowed
      (DirectedEdge.mk 1 50 Use.kRoad false false false) 0 false 0 = true := by
    simp [PedestrianCost.Allowed, kPedestrianAccess]
  exact ⟨rfl,
    (C5_access_monotone (PedestrianCost.mk 100 (51/10) (9/10))
      (DirectedEdge.mk 0 50 Use.kRoad false false false) 0 false 0).1 rfl,
    hA,
    (C5_access_monotone (PedestrianCost.mk 100 (51/10) (9/10))
      (DirectedEdge.mk 1 50 Use.kRoad false false false) 0 false 0).2 hA⟩

/-- C6: an edge the exclusion filter lets through (filter returns false) has
the pedestrian forward-access bit set, so Allowed cannot fail on access
grounds. -/
theorem C6_filter_access_agree (s : PedestrianCost) (edge : DirectedEdge)
    (h : s.GetFilter edge = false) :
    edge.forwardaccess &&& kPedestrianAccess ≠ 0 := by
  simp [PedestrianCost.GetFilter] at h
  exact h.2

/-- C6 witness: a plain edge with the pedestrian bit passes the filter. -/
theorem C6_filter_access_agree_witness :
    (PedestrianCost.mk 100 (51/10) (9/10)).GetFilter
      (DirectedEdge.mk 1 50 Use.kRoad false false false) = false ∧
    (DirectedEdge.mk 1 50 Use.kRoad false false false).forwardaccess &&&
      kPedestrianAccess ≠ 0 :=
  ⟨by decide,
   C6_filter_access_agree (PedestrianCost.mk 100 (51/10) (9/10))
     (DirectedEdge.mk 1 50 Use.kRoad false false false) (by decide)⟩

/-- C7: the pedestrian strategy ignores the turn-restriction mask: Allowed
gives the same result for any two restriction values, all else fixed. -/
theorem C7_restriction_independent (s : PedestrianCost) (edge : DirectedEdge)
    (u : Bool) (d : ℚ) (r1 r2 : Nat) :
    s.Allowed edge r1 u d = s.Allowed edge r2 u d := rfl

/-- C8: with the default configuration, a footway edge of length 50 costs 45
and takes 50×3.6/5.1 seconds; a road edge of length 50 costs 50. -/
theorem C8_default_scenarios (c : Config) (s : PedestrianCost)
    (h : CreatePedestrianCost c = Except.ok s) :
    (∀ e : DirectedEdge, e.use = Use.kFootway → e.length = 50 →
      s.Get e = 45 ∧ s.Seconds e = 50 * (18/5) / (51/10)) ∧
    (∀ e : DirectedEdge, e.use = Use.kRoad → e.length = 50 →
      s.Get e = 50) := by
  obtain rfl := createPedestrianCost_fields c s h
  refine ⟨?_, ?_⟩
  · intro e hu hl
    constructor
    · simp [PedestrianCost.Get, hu, hl]
      norm_num
    · simp [PedestrianCost.Seconds, hl]
  · intro e hu hl
    simp [PedestrianCost.Get, hu, hl]

/-- C8 witness: the theorem instantiated at the all-defaults configuration. -/
theorem C8_default_scenarios_witness :
    CreatePedestrianCost ⟨none, none, none⟩ =
      Except.ok ⟨5000, 51/10, 9/10⟩ ∧
    ((∀ e : DirectedEdge, e.use = Use.kFootway → e.length = 50 →
      (PedestrianCost.mk 5000 (51/10) (9/10)).Get e = 45 ∧
      (PedestrianCost.mk 5000 (51/10) (9/10)).Seconds e = 50 * (18/5) / (51/10)) ∧
    (∀ e : DirectedEdge, e.use = Use.kRoad → e.length = 50 →
      (PedestrianCost.mk 5000 (51/10) (9/10)).Get e = 50)) :=
  ⟨createPedestrianCost_default_ok,
   C8_default_scenarios ⟨none, none, none⟩ _ createPedestrianCost_default_ok⟩

/-- C9: for every well-formed edge (length ≥ 0) the cost and the traversal time
are non-negative, and UnitSize is strictly positive (the code returns 2). -/
theorem C9_nonneg (c : Config) (s : PedestrianCost)
    (h : CreatePedestrianCost c = Except.ok s) :
    (∀ e : DirectedEdge, 0 ≤ e.length → 0 ≤ s.Get e ∧ 0 ≤ s.Seconds e) ∧
    0 < s.UnitSize ∧ s.UnitSize = 2 := by
  obtain rfl := createPedestrianCost_fields c s h
  refine ⟨?_, by norm_num [PedestrianCost.UnitSize], rfl⟩
  intro e he
  constructor
  · unfold PedestrianCost.Get
    split
    · exact mul_nonneg he (by norm_num)
    · exact he
  · exact div_nonneg (mul_nonneg he (by norm_num)) (by norm_num)

/-- C9 witness: the theorem instantiated at the all-defaults configuration. -/
theorem C9_nonneg_witness :
    CreatePedestrianCost ⟨none, none, none⟩ =
      Except.ok ⟨5000, 51/10, 9/10⟩ ∧
    ((∀ e : DirectedEdge, 0 ≤ e.length →
      0 ≤ (PedestrianCost.mk 5000 (51/10) (9/10)).Get e ∧
      0 ≤ (PedestrianCost.mk 5000 (51/10) (9/10)).Seconds e) ∧
    0 < (PedestrianCost.mk 5000 (51/10) (9/10)).UnitSize ∧
    (PedestrianCost.mk 5000 (51/10) (9/10)).UnitSize = 2) :=
  ⟨createPedestrianCost_default_ok,
   C9_nonneg ⟨none, none, none⟩ _ createPedestrianCost_default_ok⟩

/-- C10 counterexample: two configurations differing only in the not-through
tolerance yield strategies whose Allowed results differ on a not-through edge,
so the strategy's observable behavior is not independent of the
configuration. -/
theorem C10_counterexample :
    (CreatePedestrianCost ⟨none, none, some 0⟩).map
        (fun s => s.Allowed ⟨1, 10, Use.kRoad, true, false, false⟩ 0 false 50) ≠
      (CreatePedestrianCost ⟨none, none, some 100⟩).map
        (fun s => s.Allowed ⟨1, 10, Use.kRoad, true, false, false⟩ 0 false 50) := by
  have h1 : CreatePedestrianCost ⟨none, none, some 0⟩ =
      Except.ok ⟨0, 51/10, 9/10⟩ := by
    simp [CreatePedestrianCost, DynamicCost.ofConfig, Except.map]
  have h2 : CreatePedestrianCost ⟨none, none, some 100⟩ =
      Except.ok ⟨100, 51/10, 9/10⟩ := by
    simp [CreatePedestrianCost, DynamicCost.ofConfig, Except.map]
    norm_num
  rw [h1, h2]
  simp [Except.map, PedestrianCost.Allowed, kPedestrianAccess]
  norm_num

/-- C10 (amended): the constructor fixes walking speed 5.1 and favor-walkways
0.9 regardless of configuration, so Get, Seconds, AStarCostFactor, UnitSize,
the exclusion filter and node access agree between any two constructed
strategies; Allowed depends on the configuration only through the inherited
not-through tolerance, and agrees whenever the tolerances agree. -/
theorem C10_config_independence (c1 c2 : Config) (s1 s2 : PedestrianCost)
    (h1 : CreatePedestrianCost c1 = Except.ok s1)
    (h2 : CreatePedestrianCost c2 = Except.ok s2) :
    s1.walkingspeed_ = 51/10 ∧ s1.favorwalkways_ = 9/10 ∧
    (∀ e, s1.Get e = s2.Get e) ∧
    (∀ e, s1.Seconds e = s2.Seconds e) ∧
    s1.AStarCostFactor = s2.AStarCostFactor ∧
    s1.UnitSize = s2.UnitSize ∧
    (∀ e, s1.GetFilter e = s2.GetFilter e) ∧
    (∀ n, s1.AllowedNode n = s2.AllowedNode n) ∧
    (s1.not_thru_distance_ = s2.not_thru_distance_ →
      ∀ e r u d, s1.Allowed e r u d = s2.Allowed e r u d) := by
  obtain rfl := createPedestrianCost_fields c1 s1 h1
  obtain rfl := createPedestrianCost_fields c2 s2 h2
  refine ⟨rfl, rfl, fun e => rfl, fun e => rfl, rfl, rfl, fun e => rfl,
    fun n => rfl, fun htol e r u d => ?_⟩
  simp only [PedestrianCost.Allowed] at htol ⊢
  rw [htol]

/-- C10 witness: the amended theorem instantiated at two concrete
configurations with equal tolerances. -/
theorem C10_config_independence_witness :
    CreatePedestrianCost ⟨none, none, none⟩ =
      Except.ok ⟨5000, 51/10, 9/10⟩ ∧
    ((PedestrianCost.mk 5000 (51/10) (9/10)).walkingspeed_ = 51/10 ∧
    (PedestrianCost.mk 5000 (51/10) (9/10)).favorwalkways_ = 9/10 ∧
    (∀ e, (PedestrianCost.mk 5000 (51/10) (9/10)).Get e =
      (PedestrianCost.mk 5000 (51/10) (9/10)).Get e) ∧
    (∀ e, (PedestrianCost.mk 5000 (51/10) (9/10)).Seconds e =
      (PedestrianCost.mk 5000 (51/10) (9/10)).Seconds e) ∧
    (PedestrianCost.mk 5000 (51/10) (9/10)).AStarCostFactor =
      (PedestrianCost.mk 5000 (51/10) (9/10)).AStarCostFactor ∧
    (PedestrianCost.mk 5000 (51/10) (9/10)).UnitSize =
      (PedestrianCost.mk 5000 (51/10) (9/10)).UnitSize ∧
    (∀ e, (PedestrianCost.mk 5000 (51/10) (9/10)).GetFilter e =
      (PedestrianCost.mk 5000 (51/10) (9/10)).GetFilter e) ∧
    (∀ n, (PedestrianCost.mk 5000 (51/10) (9/10)).AllowedNode n =
      (PedestrianCost.mk 5000 (51/10) (9/10)).AllowedNode n) ∧
    ((PedestrianCost.mk 5000 (51/10) (9/10)).not_thru_distance_ =
        (PedestrianCost.mk 5000 (51/10) (9/10)).not_thru_distance_ →
      ∀ e r u d, (PedestrianCost.mk 5000 (51/10) (9/10)).Allowed e r u d =
        (PedestrianCost.mk 5000 (51/10) (9/10)).Allowed e r u d)) :=
  ⟨createPedestrianCost_default_ok,
   C10_config_independence ⟨none, none, none⟩ ⟨none, none, none⟩ _ _
     createPedestrianCost_default_ok createPedestrianCost_default_ok⟩
